import Mathlib

/-!
Shallow embedding of the request-building and response-handling logic of the
TypeScript SDK (src/users.ts and src/journal.ts), together with models of the
JavaScript platform primitives the code relies on (JSON values, template-string
coercion, the WHATWG URL constructor restricted to http-style URLs, and the
URLSearchParams serializer), and theorems settling the specification claims.
-/

/-- A JSON value, as produced by response.json() and consumed by
JSON.stringify. Numbers are modelled as integers (every number appearing in
the SDK requests is integral). -/
inductive Json where
  | null : Json
  | bool (b : Bool) : Json
  | num (n : Int) : Json
  | str (s : String) : Json
  | arr (l : List Json) : Json
  | obj (fields : List (String × Json)) : Json
deriving Repr

mutual

def Json.beq : Json → Json → Bool
  | .null, .null => true
  | .bool a, .bool b => a == b
  | .num a, .num b => a == b
  | .str a, .str b => a == b
  | .arr a, .arr b => Json.beqList a b
  | .obj a, .obj b => Json.beqFields a b
  | _, _ => false

def Json.beqList : List Json → List Json → Bool
  | [], [] => true
  | a :: as_, b :: bs => Json.beq a b && Json.beqList as_ bs
  | _, _ => false

def Json.beqFields : List (String × Json) → List (String × Json) → Bool
  | [], [] => true
  | (ka, va) :: as_, (kb, vb) :: bs => ka == kb && Json.beq va vb && Json.beqFields as_ bs
  | _, _ => false

end

mutual

def Json.beq_iff : ∀ a b : Json, Json.beq a b = true ↔ a = b
  | .null, b => by cases b <;> simp [Json.beq]
  | .bool x, b => by cases b <;> simp [Json.beq]
  | .num x, b => by cases b <;> simp [Json.beq]
  | .str x, b => by cases b <;> simp [Json.beq]
  | .arr l, b => by
      cases b <;> simp [Json.beq]
      exact Json.beqList_iff l _
  | .obj l, b => by
      cases b <;> simp [Json.beq]
      exact Json.beqFields_iff l _

def Json.beqList_iff : ∀ a b : List Json, Json.beqList a b = true ↔ a = b
  | [], b => by cases b <;> simp [Json.beqList]
  | x :: xs, b => by
      cases b with
      | nil => simp [Json.beqList]
      | cons y ys =>
          simp [Json.beqList, Json.beq_iff x y, Json.beqList_iff xs ys]

def Json.beqFields_iff : ∀ a b : List (String × Json), Json.beqFields a b = true ↔ a = b
  | [], b => by cases b <;> simp [Json.beqFields]
  | (k, v) :: xs, b => by
      cases b with
      | nil => simp [Json.beqFields]
      | cons y ys =>
          obtain ⟨k2, v2⟩ := y
          simp [Json.beqFields, Json.beq_iff v v2, Json.beqFields_iff xs ys, and_assoc]

end

instance : DecidableEq Json := fun a b =>
  decidable_of_iff (Json.beq a b = true) (Json.beq_iff a b)

/-- Model of JavaScript property access v.f (and of the optional chaining
form v?.f) when the result is compared against undefined: none stands for
undefined. Accessing a property of null or undefined is NOT covered by this
function; the call sites handle the null case separately, because in
JavaScript it throws a TypeError. -/
def Json.getField? : Json → String → Option Json
  | .obj fields, name => fields.lookup name
  | _, _ => none

mutual

/-- Model of the JavaScript String(v) coercion (also used by template
literals) on JSON values: strings pass through, numbers and booleans render,
arrays join their elements with commas, objects render as [object Object]. -/
def Json.jsToString : Json → String
  | .null => "null"
  | .bool b => if b then "true" else "false"
  | .num n => toString n
  | .str s => s
  | .arr l => Json.jsToStringArr l
  | .obj _ => "[object Object]"

def Json.jsToStringArr : List Json → String
  | [] => ""
  | [x] => Json.jsToString x
  | x :: y :: xs => Json.jsToString x ++ "," ++ Json.jsToStringArr (y :: xs)

end

def hexUpperDigit (n : Nat) : Char :=
  "0123456789ABCDEF".toList.getD n '0'

/-- Escape one character for a JSON string literal, as JSON.stringify does. -/
def escapeJsonChar (c : Char) : String :=
  if c = '"' then "\\\""
  else if c = '\\' then "\\\\"
  else if c = '\n' then "\\n"
  else if c = '\r' then "\\r"
  else if c = '\t' then "\\t"
  else if c.toNat < 32 then
    "\\u00" ++ String.mk [hexUpperDigit (c.toNat / 16), hexUpperDigit (c.toNat % 16)]
  else String.mk [c]

def escapeJson (s : String) : String :=
  String.join (s.toList.map escapeJsonChar)

mutual

/-- Model of JSON.stringify on JSON values. A property whose value is
undefined is represented by omitting the property from the obj list, matching
the omission JSON.stringify performs. -/
def Json.stringify : Json → String
  | .null => "null"
  | .bool b => if b then "true" else "false"
  | .num n => toString n
  | .str s => "\"" ++ escapeJson s ++ "\""
  | .arr l => "[" ++ Json.stringifyArr l ++ "]"
  | .obj l => "\x7b" ++ Json.stringifyFields l ++ "\x7d"

def Json.stringifyArr : List Json → String
  | [] => ""
  | [x] => Json.stringify x
  | x :: y :: xs => Json.stringify x ++ "," ++ Json.stringifyArr (y :: xs)

def Json.stringifyFields : List (String × Json) → String
  | [] => ""
  | [(k, v)] => "\"" ++ escapeJson k ++ "\":" ++ Json.stringify v
  | (k, v) :: y :: xs =>
      "\"" ++ escapeJson k ++ "\":" ++ Json.stringify v ++ "," ++ Json.stringifyFields (y :: xs)

end

/-- A parsed URL: scheme, host (including any port), absolute path, and query
string (without the leading question mark). Fragments do not occur in the
URLs the SDK builds and are not modelled. -/
structure URL where
  scheme : String
  host : String
  path : String
  query : String
deriving DecidableEq, Repr

/-- Split a list at the first occurrence of sep: the part before it, and, when
sep occurs, the whole remainder after it. -/
def splitFirstList (sep : Char) : List Char → List Char × Option (List Char)
  | [] => ([], none)
  | c :: cs =>
      if c = sep then ([], some cs)
      else
        let r := splitFirstList sep cs
        (c :: r.1, r.2)

def splitFirst (sep : Char) (s : String) : String × Option String :=
  let r := splitFirstList sep s.toList
  (String.mk r.1, r.2.map String.mk)

def startsWithSlash (s : String) : Bool :=
  match s.data with
  | c :: _ => c = '/'
  | [] => false

/-- Split a character list at the first occurrence of the three-character
separator colon slash slash, when it occurs. -/
def findSchemeSep : List Char → Option (List Char × List Char)
  | [] => none
  | ':' :: '/' :: '/' :: rest => some ([], rest)
  | c :: cs => (findSchemeSep cs).map fun r => (c :: r.1, r.2)

/-- Model of the WHATWG URL constructor new URL(input) without a base, for
http-style absolute URLs: the input must be scheme://host[/path][?query] with
a nonempty alphabetic scheme and a nonempty host, otherwise the constructor
throws (none). In particular new URL("") throws. -/
def parseURL (s : String) : Option URL :=
  match findSchemeSep s.data with
  | none => none
  | some (sch, after) =>
      if sch ≠ [] && sch.all Char.isAlpha && after ≠ [] then
        let hp := splitFirstList '/' after
        if hp.1 = [] then none
        else
          let pq := splitFirstList '?' (hp.2.getD [])
          some ⟨String.mk sch, String.mk hp.1, "/" ++ String.mk pq.1,
                String.mk (pq.2.getD [])⟩
      else none

/-- Everything of p up to and including the last slash. -/
def dirOf (p : String) : String :=
  String.mk ((p.toList.reverse.dropWhile (fun c => c ≠ '/')).reverse)

/-- Model of new URL(rel, base) for the relative references the SDK builds:
rel is a path reference, absolute (leading slash) or relative, optionally
followed by a question mark and a query; it carries no scheme, no host and no
fragment, and dot segments are not used. The resolved URL keeps the scheme
and host of base; a relative path is resolved against the directory of the
base path. -/
def resolveURL (rel : String) (base : URL) : URL :=
  let pq := splitFirst '?' rel
  let path := if startsWithSlash pq.1 then pq.1 else dirOf base.path ++ pq.1
  ⟨base.scheme, base.host, path, pq.2.getD ""⟩

/-- UTF-8 bytes of a character, from its code point. -/
def utf8Bytes (c : Char) : List Nat :=
  let n := c.toNat
  if n < 0x80 then [n]
  else if n < 0x800 then [0xC0 + n / 64, 0x80 + n % 64]
  else if n < 0x10000 then [0xE0 + n / 4096, 0x80 + n / 64 % 64, 0x80 + n % 64]
  else [0xF0 + n / 262144, 0x80 + n / 4096 % 64, 0x80 + n / 64 % 64, 0x80 + n % 64]

/-- Serialize one byte under application/x-www-form-urlencoded: 0x20 becomes
a plus sign, ASCII alphanumerics and asterisk, minus, period, underscore stay
themselves, every other byte is percent-encoded with uppercase hex. -/
def formEncodeByte (b : Nat) : String :=
  if b = 0x20 then "+"
  else if (0x30 ≤ b && b ≤ 0x39) || (0x41 ≤ b && b ≤ 0x5A) || (0x61 ≤ b && b ≤ 0x7A)
      || b = 0x2A || b = 0x2D || b = 0x2E || b = 0x5F then
    String.mk [Char.ofNat b]
  else
    String.mk ['%', hexUpperDigit (b / 16), hexUpperDigit (b % 16)]

def formEncode (s : String) : String :=
  String.join ((s.toList.flatMap utf8Bytes).map formEncodeByte)

/-- Model of new URLSearchParams(record).toString(): each key/value pair is
form-encoded as key=value and the pairs are joined with ampersands, in the
insertion order of the record. -/
def urlSearchParamsToString (ps : List (String × String)) : String :=
  String.intercalate "&" (ps.map fun kv => formEncode kv.1 ++ "=" ++ formEncode kv.2)

/-- The per-key String(value) coercion both clients apply to their
queryParams object before serializing it. -/
def stringParams (qp : List (String × Json)) : List (String × String) :=
  qp.map fun kv => (kv.1, kv.2.jsToString)


/-- A value thrown inside a request method. Opaque runtime errors (a fetch
rejection, a response.json() rejection) are identified by a numeric id so
that propagating a value unchanged is expressible as equality. -/
inductive JsError where
  /-- The error produced by Errors.HandleError: it carries the (possibly
  undefined) message taken from the error body and the HTTP status code. -/
  | sdk (message : Option Json) (status : Nat) : JsError
  /-- An opaque runtime error value rethrown as it is. -/
  | raw (e : Nat) : JsError
  /-- The TypeError raised by reading the message property of a null body. -/
  | typeError : JsError
deriving DecidableEq, Repr

/-- Modelled from the spec: Errors.HandleError lives in src/errors.ts, which
is not included under src/. The spec says non-2xx responses are converted
into a single error type carrying the server message and HTTP status, so the
model packs exactly those two arguments into the error value. -/
def Errors.HandleError (message : Option Json) (status : Nat) : JsError :=
  .sdk message status

instance {ε α : Type} [DecidableEq ε] [DecidableEq α] : DecidableEq (Except ε α) := fun a b =>
  match a, b with
  | .ok x, .ok y =>
      if h : x = y then .isTrue (by rw [h]) else .isFalse (by simp [h])
  | .error x, .error y =>
      if h : x = y then .isTrue (by rw [h]) else .isFalse (by simp [h])
  | .ok _, .error _ => .isFalse (by simp)
  | .error _, .ok _ => .isFalse (by simp)

/-- What one awaited fetch call amounts to: either the promise rejects with
an opaque error, or a response arrives with an HTTP status and with the
outcome that awaiting response.json() would produce (the parsed JSON value,
or an opaque rejection on a parse failure). -/
inductive FetchOutcome where
  | reject (e : Nat) : FetchOutcome
  | resp (status : Nat) (jsonOutcome : Except Nat Json) : FetchOutcome
deriving DecidableEq, Repr

/-- Model of the response.ok getter: the status is in the 2xx range. -/
def responseOk (status : Nat) : Bool :=
  200 ≤ status && status ≤ 299

/-- The response-handling pattern shared by every method that returns the
parsed body: if response.ok fails, parse the error body and throw
Errors.HandleError of its message field and the status (reading the message
property of a null body throws a TypeError instead); otherwise return the
parsed body. The surrounding try/catch rethrows whatever was thrown. -/
def handleJson (o : FetchOutcome) : Except JsError Json :=
  match o with
  | .reject e => .error (.raw e)
  | .resp status jsonOutcome =>
      if responseOk status then
        match jsonOutcome with
        | .ok v => .ok v
        | .error e => .error (.raw e)
      else
        match jsonOutcome with
        | .error e => .error (.raw e)
        | .ok .null => .error .typeError
        | .ok v => .error (Errors.HandleError (v.getField? "message") status)

/-- The Response object literal the three password/delete methods build on
success: the HTTP status and a fixed message. -/
def statusMessage (status : Nat) (msg : String) : Json :=
  .obj [("status", .num status), ("message", .str msg)]

/-- The response-handling pattern of ResetPasswordRequest, ResetPassword and
DeleteUser: the error path is the shared one, but on success the body is not
parsed at all and a Response object with the status and a fixed message is
returned. -/
def handleStatusMessage (msg : String) (o : FetchOutcome) : Except JsError Json :=
  match o with
  | .reject e => .error (.raw e)
  | .resp status jsonOutcome =>
      if responseOk status then
        .ok (statusMessage status msg)
      else
        match jsonOutcome with
        | .error e => .error (.raw e)
        | .ok .null => .error .typeError
        | .ok v => .error (Errors.HandleError (v.getField? "message") status)

/-- The immutable configuration a Users instance holds after construction. -/
structure UsersConfig where
  usersUrl : URL
  clientsUrl : URL
  contentType : String
  usersEndpoint : String
  searchEndpoint : String
deriving DecidableEq, Repr

/-- The Users constructor: parse usersUrl, then parse clientsUrl when it is
given and the empty string when it is omitted (new URL("") throws, making the
whole construction fail), and fix the three string constants. -/
def Users.construct (usersUrl : String) (clientsUrl : Option String) : Option UsersConfig :=
  match parseURL usersUrl with
  | none => none
  | some uu =>
      match (match clientsUrl with | some c => parseURL c | none => parseURL "") with
      | none => none
      | some cu => some ⟨uu, cu, "application/json", "users", "search"⟩

/-- The immutable configuration a Journal instance holds after construction. -/
structure JournalConfig where
  journalsUrl : URL
  journalsEndpoint : String
  contentType : String
deriving DecidableEq, Repr

/-- The Journal constructor. -/
def Journal.construct (journalsUrl : String) : Option JournalConfig :=
  match parseURL journalsUrl with
  | none => none
  | some ju => some ⟨ju, "journal", "application/json"⟩

/-- An HTTP request as handed to fetch: method, resolved URL, header list in
the order the options literal writes it, and optional body. -/
structure Request where
  method : String
  url : URL
  headers : List (String × String)
  body : Option String
deriving DecidableEq, Repr

/-- Interpolation of a possibly-omitted string argument into a template
literal: an omitted (undefined) argument renders as the text undefined. -/
def jsUndef : Option String → String
  | some s => s
  | none => "undefined"

/-- Interpolation of the property f of the object v into a template literal:
a missing property renders as the text undefined. -/
def jsField (v : Json) (f : String) : String :=
  match v.getField? f with
  | some x => x.jsToString
  | none => "undefined"

/-- The object literal for a single property copied from another object,
as JSON.stringify serializes it: an undefined property is omitted. -/
def pickField (v : Json) (src dst : String) : Json :=
  match v.getField? src with
  | some x => .obj [(dst, x)]
  | none => .obj []

/-- One invocation of a public request method of the Users class, with its
arguments. User, login and queryParams objects are JSON values. -/
inductive UsersCall where
  | Create (user : Json) (token : Option String) : UsersCall
  | CreateToken (login : Json) : UsersCall
  | RefreshToken (refreshToken : String) : UsersCall
  | Update (user : Json) (token : String) : UsersCall
  | UpdateEmail (user : Json) (token : String) : UsersCall
  | UpdateUsername (user : Json) (token : String) : UsersCall
  | UpdateProfilePicture (user : Json) (token : String) : UsersCall
  | UpdateUserTags (user : Json) (token : String) : UsersCall
  | UpdateUserPassword (oldSecret newSecret token : String) : UsersCall
  | UpdateUserRole (user : Json) (token : String) : UsersCall
  | User (userId token : String) : UsersCall
  | UserProfile (token : String) : UsersCall
  | Users (queryParams : List (String × Json)) (token : String) : UsersCall
  | Disable (user : Json) (token : String) : UsersCall
  | Enable (user : Json) (token : String) : UsersCall
  | ListUserGroups (domainId userId : String) (queryParams : List (String × Json)) (token : String) : UsersCall
  | ListUserClients (userId domainId : String) (queryParams : List (String × Json)) (token : String) : UsersCall
  | ListUserChannels (domainId userId : String) (queryParams : List (String × Json)) (token : String) : UsersCall
  | ResetPasswordRequest (email hostUrl : String) : UsersCall
  | ResetPassword (password confPass token : String) : UsersCall
  | DeleteUser (userId token : String) : UsersCall
  | SearchUsers (queryParams : List (String × Json)) (token : String) : UsersCall
deriving DecidableEq, Repr

/-- The request each Users method hands to fetch, read off arm by arm from
the options literal and the new URL(...) expression of the corresponding
method body in src/users.ts. -/
def Users.request (cfg : UsersConfig) (c : UsersCall) : Request :=
  match c with
  | .Create user token =>
      ⟨"POST",
       resolveURL cfg.usersEndpoint cfg.usersUrl,
       [("Content-Type", cfg.contentType), ("Authorization", "Bearer " ++ jsUndef token)],
       some user.stringify⟩
  | .CreateToken login =>
      ⟨"POST",
       resolveURL (cfg.usersEndpoint ++ "/tokens/issue") cfg.usersUrl,
       [("Content-Type", cfg.contentType)],
       some login.stringify⟩
  | .RefreshToken refreshToken =>
      ⟨"POST",
       resolveURL (cfg.usersEndpoint ++ "/tokens/refresh") cfg.usersUrl,
       [("Content-Type", cfg.contentType), ("Authorization", "Bearer " ++ refreshToken)],
       none⟩
  | .Update user token =>
      ⟨"PATCH",
       resolveURL (cfg.usersEndpoint ++ "/" ++ jsField user "id") cfg.usersUrl,
       [("Content-Type", cfg.contentType), ("Authorization", "Bearer " ++ token)],
       some user.stringify⟩
  | .UpdateEmail user token =>
      ⟨"PATCH",
       resolveURL (cfg.usersEndpoint ++ "/" ++ jsField user "id" ++ "/email") cfg.usersUrl,
       [("Content-Type", cfg.contentType), ("Authorization", "Bearer " ++ token)],
       some (pickField user "email" "email").stringify⟩
  | .UpdateUsername user token =>
      ⟨"PATCH",
       resolveURL (cfg.usersEndpoint ++ "/" ++ jsField user "id" ++ "/username") cfg.usersUrl,
       [("Content-Type", cfg.contentType), ("Authorization", "Bearer " ++ token)],
       some (match (user.getField? "credentials").bind (fun cr => cr.getField? "username") with
             | some x => Json.obj [("username", x)]
             | none => Json.obj []).stringify⟩
  | .UpdateProfilePicture user token =>
      ⟨"PATCH",
       resolveURL (cfg.usersEndpoint ++ "/" ++ jsField user "id" ++ "/picture") cfg.usersUrl,
       [("Content-Type", cfg.contentType), ("Authorization", "Bearer " ++ token)],
       some (pickField user "profile_picture" "profile_picture").stringify⟩
  | .UpdateUserTags user token =>
      ⟨"PATCH",
       resolveURL (cfg.usersEndpoint ++ "/" ++ jsField user "id" ++ "/tags") cfg.usersUrl,
       [("Content-Type", cfg.contentType), ("Authorization", "Bearer " ++ token)],
       some user.stringify⟩
  | .UpdateUserPassword oldSecret newSecret token =>
      ⟨"PATCH",
       resolveURL (cfg.usersEndpoint ++ "/secret") cfg.usersUrl,
       [("Content-Type", cfg.contentType), ("Authorization", "Bearer " ++ token)],
       some (Json.obj [("old_secret", .str oldSecret), ("new_secret", .str newSecret)]).stringify⟩
  | .UpdateUserRole user token =>
      ⟨"PATCH",
       resolveURL (cfg.usersEndpoint ++ "/" ++ jsField user "id" ++ "/role") cfg.usersUrl,
       [("Content-Type", cfg.contentType), ("Authorization", "Bearer " ++ token)],
       some user.stringify⟩
  | .User userId token =>
      ⟨"GET",
       resolveURL (cfg.usersEndpoint ++ "/" ++ userId) cfg.usersUrl,
       [("Content-Type", cfg.contentType), ("Authorization", "Bearer " ++ token)],
       none⟩
  | .UserProfile token =>
      ⟨"GET",
       resolveURL (cfg.usersEndpoint ++ "/profile") cfg.usersUrl,
       [("Content-Type", cfg.contentType), ("Authorization", "Bearer " ++ token)],
       none⟩
  | .Users queryParams token =>
      ⟨"GET",
       resolveURL (cfg.usersEndpoint ++ "?"
         ++ urlSearchParamsToString (stringParams queryParams)) cfg.usersUrl,
       [("Content-Type", cfg.contentType), ("Authorization", "Bearer " ++ token)],
       none⟩
  | .Disable user token =>
      ⟨"POST",
       resolveURL (cfg.usersEndpoint ++ "/" ++ jsField user "id" ++ "/disable") cfg.usersUrl,
       [("Content-Type", cfg.contentType), ("Authorization", "Bearer " ++ token)],
       some user.stringify⟩
  | .Enable user token =>
      ⟨"POST",
       resolveURL (cfg.usersEndpoint ++ "/" ++ jsField user "id" ++ "/enable") cfg.usersUrl,
       [("Content-Type", cfg.contentType), ("Authorization", "Bearer " ++ token)],
       some user.stringify⟩
  | .ListUserGroups domainId userId queryParams token =>
      ⟨"GET",
       resolveURL (domainId ++ "/" ++ cfg.usersEndpoint ++ "/" ++ userId ++ "/groups" ++ "?"
         ++ urlSearchParamsToString (stringParams queryParams)) cfg.usersUrl,
       [("Content-Type", cfg.contentType), ("Authorization", "Bearer " ++ token)],
       none⟩
  | .ListUserClients userId domainId queryParams token =>
      ⟨"GET",
       resolveURL (domainId ++ "/" ++ cfg.usersEndpoint ++ "/" ++ userId ++ "/clients" ++ "?"
         ++ urlSearchParamsToString (stringParams queryParams)) cfg.clientsUrl,
       [("Content-Type", cfg.contentType), ("Authorization", "Bearer " ++ token)],
       none⟩
  | .ListUserChannels domainId userId queryParams token =>
      ⟨"GET",
       resolveURL (domainId ++ "/" ++ cfg.usersEndpoint ++ "/" ++ userId ++ "/channels" ++ "?"
         ++ urlSearchParamsToString (stringParams queryParams)) cfg.clientsUrl,
       [("Content-Type", cfg.contentType), ("Authorization", "Bearer " ++ token)],
       none⟩
  | .ResetPasswordRequest email hostUrl =>
      ⟨"POST",
       resolveURL "/password/reset-request" cfg.usersUrl,
       [("Content-Type", cfg.contentType), ("Referer", hostUrl)],
       some (Json.obj [("email", .str email)]).stringify⟩
  | .ResetPassword password confPass token =>
      ⟨"PUT",
       resolveURL "/password/reset" cfg.usersUrl,
       [("Content-Type", cfg.contentType)],
       some (Json.obj [("token", .str token), ("password", .str password),
                       ("confirm_password", .str confPass)]).stringify⟩
  | .DeleteUser userId token =>
      ⟨"DELETE",
       resolveURL (cfg.usersEndpoint ++ "/" ++ userId) cfg.usersUrl,
       [("Authorization", "Bearer " ++ token)],
       none⟩
  | .SearchUsers queryParams token =>
      ⟨"GET",
       resolveURL (cfg.usersEndpoint ++ "/" ++ cfg.searchEndpoint ++ "?"
         ++ urlSearchParamsToString (stringParams queryParams)) cfg.usersUrl,
       [("Content-Type", cfg.contentType), ("Authorization", "Bearer " ++ token)],
       none⟩

/-- How each Users method turns the fetch outcome into a return value or a
thrown error: ResetPasswordRequest, ResetPassword and DeleteUser build a
fixed-message Response on success, every other method returns the parsed
body; the error path is identical everywhere. -/
def Users.handle (c : UsersCall) (o : FetchOutcome) : Except JsError Json :=
  match c with
  | .ResetPasswordRequest _ _ => handleStatusMessage "Email with reset link sent successfully" o
  | .ResetPassword _ _ _ => handleStatusMessage "Password reset successfully" o
  | .DeleteUser _ _ => handleStatusMessage "User deleted successfully" o
  | _ => handleJson o

/-- One complete invocation of a Users method: the configuration after the
call (the fields are readonly and no method assigns them, so it is the input
configuration), the list of requests handed to fetch (each method body
contains exactly one fetch call and no loop or retry), and the returned or
thrown value as a function of the fetch outcome. -/
def Users.run (cfg : UsersConfig) (c : UsersCall) (o : FetchOutcome) :
    UsersConfig × List Request × Except JsError Json :=
  (cfg, [Users.request cfg c], Users.handle c o)

/-- The request the Journal.Journal method hands to fetch, read off from
src/journal.ts. -/
def Journal.request (cfg : JournalConfig) (entityType entityId domainId : String)
    (queryParams : List (String × Json)) (token : String) : Request :=
  ⟨"GET",
   resolveURL (domainId ++ "/" ++ cfg.journalsEndpoint ++ "/" ++ entityType ++ "/" ++ entityId
     ++ "?" ++ urlSearchParamsToString (stringParams queryParams)) cfg.journalsUrl,
   [("Content-Type", cfg.contentType), ("Authorization", "Bearer " ++ token)],
   none⟩

/-- One complete invocation of Journal.Journal, in the same shape as
Users.run. -/
def Journal.run (cfg : JournalConfig) (entityType entityId domainId : String)
    (queryParams : List (String × Json)) (token : String) (o : FetchOutcome) :
    JournalConfig × List Request × Except JsError Json :=
  (cfg, [Journal.request cfg entityType entityId domainId queryParams token], handleJson o)

/-- The three Users methods that build a fixed-message Response on success
instead of returning the parsed body, each with its message; none for every
other method. -/
def UsersCall.fixedMessage : UsersCall → Option String
  | .ResetPasswordRequest _ _ => some "Email with reset link sent successfully"
  | .ResetPassword _ _ _ => some "Password reset successfully"
  | .DeleteUser _ _ => some "User deleted successfully"
  | _ => none

/-- The bearer token a Users method puts in its Authorization header, when it
sends one: none exactly for CreateToken, ResetPasswordRequest and
ResetPassword, whose options literal has no Authorization entry. -/
def UsersCall.authToken : UsersCall → Option String
  | .Create _ token => some (jsUndef token)
  | .CreateToken _ => none
  | .RefreshToken refreshToken => some refreshToken
  | .Update _ token => some token
  | .UpdateEmail _ token => some token
  | .UpdateUsername _ token => some token
  | .UpdateProfilePicture _ token => some token
  | .UpdateUserTags _ token => some token
  | .UpdateUserPassword _ _ token => some token
  | .UpdateUserRole _ token => some token
  | .User _ token => some token
  | .UserProfile token => some token
  | .Users _ token => some token
  | .Disable _ token => some token
  | .Enable _ token => some token
  | .ListUserGroups _ _ _ token => some token
  | .ListUserClients _ _ _ token => some token
  | .ListUserChannels _ _ _ token => some token
  | .ResetPasswordRequest _ _ => none
  | .ResetPassword _ _ _ => none
  | .DeleteUser _ token => some token
  | .SearchUsers _ token => some token

/-- A sample Users configuration, the one Users.construct yields for the
base URLs http://users.example and http://clients.example. -/
def cfgA : UsersConfig :=
  ⟨⟨"http", "users.example", "/", ""⟩, ⟨"http", "clients.example", "/", ""⟩,
   "application/json", "users", "search"⟩

/-- A sample Journal configuration, the one Journal.construct yields for the
base URL http://journal.example. -/
def jcfgA : JournalConfig :=
  ⟨⟨"http", "journal.example", "/", ""⟩, "journal", "application/json"⟩

/-- A sample parsed response body. -/
def bodyA : Json := .obj [("id", .str "u1"), ("status", .str "enabled")]

/-- A Users configuration whose two base URLs are distinct but share a host,
the one Users.construct yields for http://example.com/a/ and
http://example.com/b/. -/
def cfgSameHost : UsersConfig :=
  ⟨⟨"http", "example.com", "/a/", ""⟩, ⟨"http", "example.com", "/b/", ""⟩,
   "application/json", "users", "search"⟩

theorem splitFirstList_append (sep : Char) (p q : List Char) (hp : sep ∉ p) :
    splitFirstList sep (p ++ sep :: q) = (p, some q) := by
  induction p with
  | nil => simp [splitFirstList]
  | cons c cs ih =>
      have hc : c ≠ sep := fun h => hp (h ▸ List.mem_cons_self c cs)
      have hcs : sep ∉ cs := fun h => hp (List.mem_cons_of_mem c h)
      simp [splitFirstList, hc, ih hcs]

theorem splitFirst_append (p q : String) (hp : '?' ∉ p.data) :
    splitFirst '?' (p ++ "?" ++ q) = (p, some q) := by
  unfold splitFirst
  have hd : (p ++ "?" ++ q).toList = p.data ++ '?' :: q.data := by
    show (p ++ "?" ++ q).data = _
    rw [String.data_append, String.data_append, List.append_assoc]
    rfl
  rw [hd, splitFirstList_append '?' p.data q.data hp]
  rfl

theorem resolveURL_query (p q : String) (base : URL) (hp : '?' ∉ p.data) :
    resolveURL (p ++ "?" ++ q) base =
      ⟨base.scheme, base.host,
       if startsWithSlash p then p else dirOf base.path ++ p, q⟩ := by
  unfold resolveURL
  rw [splitFirst_append p q hp]
  rfl

theorem not_mem_data_append {c : Char} (a b : String) (ha : c ∉ a.data) (hb : c ∉ b.data) :
    c ∉ (a ++ b).data := by
  rw [String.data_append]
  exact fun h => (List.mem_append.mp h).elim ha hb

theorem data_append_ne_nil (a b : String) (ha : a.data ≠ []) : (a ++ b).data ≠ [] := by
  rw [String.data_append]
  intro h
  exact ha (List.append_eq_nil.mp h).1

theorem startsWithSlash_append (a b : String) (ha : a.data ≠ []) :
    startsWithSlash (a ++ b) = startsWithSlash a := by
  cases hd : a.data with
  | nil => exact absurd hd ha
  | cons c cs =>
      unfold startsWithSlash
      rw [String.data_append, hd]
      rfl

theorem startsWithSlash_chain4 (d a b c e : String) (hd : d.data ≠ []) :
    startsWithSlash (d ++ a ++ b ++ c ++ e) = startsWithSlash d := by
  have h1 : (d ++ a).data ≠ [] := data_append_ne_nil _ _ hd
  have h2 : (d ++ a ++ b).data ≠ [] := data_append_ne_nil _ _ h1
  have h3 : (d ++ a ++ b ++ c).data ≠ [] := data_append_ne_nil _ _ h2
  rw [startsWithSlash_append _ _ h3, startsWithSlash_append _ _ h2,
      startsWithSlash_append _ _ h1, startsWithSlash_append _ _ hd]

theorem startsWithSlash_chain5 (d a b c e f : String) (hd : d.data ≠ []) :
    startsWithSlash (d ++ a ++ b ++ c ++ e ++ f) = startsWithSlash d := by
  have h1 : (d ++ a).data ≠ [] := data_append_ne_nil _ _ hd
  have h2 : (d ++ a ++ b).data ≠ [] := data_append_ne_nil _ _ h1
  have h3 : (d ++ a ++ b ++ c).data ≠ [] := data_append_ne_nil _ _ h2
  have h4 : (d ++ a ++ b ++ c ++ e).data ≠ [] := data_append_ne_nil _ _ h3
  rw [startsWithSlash_append _ _ h4, startsWithSlash_append _ _ h3,
      startsWithSlash_append _ _ h2, startsWithSlash_append _ _ h1,
      startsWithSlash_append _ _ hd]

theorem users_construct_constants (u : String) (cu : Option String) (cfg : UsersConfig)
    (h : Users.construct u cu = some cfg) :
    cfg.contentType = "application/json"
    ∧ cfg.usersEndpoint = "users" ∧ cfg.searchEndpoint = "search" := by
  unfold Users.construct at h
  cases hpu : parseURL u with
  | none => rw [hpu] at h; simp at h
  | some uu =>
      rw [hpu] at h
      cases hpc : (match cu with | some c => parseURL c | none => parseURL "") with
      | none => rw [hpc] at h; simp at h
      | some cuu =>
          rw [hpc] at h
          injection h with h
          subst h
          exact ⟨rfl, rfl, rfl⟩

theorem journal_construct_constants (u : String) (cfg : JournalConfig)
    (h : Journal.construct u = some cfg) :
    cfg.contentType = "application/json" ∧ cfg.journalsEndpoint = "journal" := by
  unfold Journal.construct at h
  cases hpu : parseURL u with
  | none => rw [hpu] at h; simp at h
  | some uu =>
      rw [hpu] at h
      injection h with h
      subst h
      exact ⟨rfl, rfl⟩

/-- Claim C1: for every public request method of Users and Journal, when the
HTTP response has a non-success status and its JSON body parses (to anything
with a readable message property, i.e. not null), the method throws exactly
the error Errors.HandleError produces from the message field of the parsed
error body and the HTTP status code, and returns no value. -/
theorem c1_nonok_throws_handleError (cfg : UsersConfig) (c : UsersCall)
    (jcfg : JournalConfig) (et ei di : String) (qp : List (String × Json)) (tk : String)
    (status : Nat) (jo : Except Nat Json) (v : Json)
    (hok : responseOk status = false) (hv : jo = .ok v) (hnull : v ≠ .null) :
    (Users.run cfg c (.resp status jo)).2.2
        = .error (Errors.HandleError (v.getField? "message") status)
    ∧ (Journal.run jcfg et ei di qp tk (.resp status jo)).2.2
        = .error (Errors.HandleError (v.getField? "message") status) := by
  subst hv
  constructor
  · cases c <;> cases v <;>
      simp_all [Users.run, Users.handle, handleJson, handleStatusMessage, Errors.HandleError]
  · cases v <;>
      simp_all [Journal.run, handleJson, Errors.HandleError]

/-- Witness for C1 at a concrete 404 with a parsed error body. -/
theorem c1_nonok_throws_handleError_witness :
    (Users.run cfgA (.User "u1" "tok")
        (.resp 404 (.ok (Json.obj [("message", Json.str "not found")])))).2.2
      = .error (Errors.HandleError
          ((Json.obj [("message", Json.str "not found")]).getField? "message") 404)
    ∧ (Journal.run jcfgA "client" "e1" "d1" [] "tok"
        (.resp 404 (.ok (Json.obj [("message", Json.str "not found")])))).2.2
      = .error (Errors.HandleError
          ((Json.obj [("message", Json.str "not found")]).getField? "message") 404) :=
  c1_nonok_throws_handleError cfgA (.User "u1" "tok") jcfgA "client" "e1" "d1" [] "tok"
    404 (.ok (Json.obj [("message", Json.str "not found")]))
    (Json.obj [("message", Json.str "not found")]) (by decide) rfl (by decide)

/-- Claim C3: for every public request method of Users and Journal, every
failure other than a non-success status is rethrown unchanged: a rejection of
fetch always, and a rejection of response.json whenever response.json is
invoked at all, which is on every non-success status and, for the methods
that return the parsed body, also on success (the three fixed-message
methods never invoke it on success, so no parse failure can arise there).
The thrown value is exactly the original error value. -/
theorem c3_other_failures_propagate (cfg : UsersConfig) (c : UsersCall)
    (jcfg : JournalConfig) (et ei di : String) (qp : List (String × Json)) (tk : String)
    (e : Nat) (status : Nat) :
    (Users.run cfg c (.reject e)).2.2 = .error (.raw e)
    ∧ (responseOk status = false ∨ c.fixedMessage = none →
        (Users.run cfg c (.resp status (.error e))).2.2 = .error (.raw e))
    ∧ (Journal.run jcfg et ei di qp tk (.reject e)).2.2 = .error (.raw e)
    ∧ (Journal.run jcfg et ei di qp tk (.resp status (.error e))).2.2 = .error (.raw e) := by
  refine ⟨?_, ?_, rfl, ?_⟩
  · cases c <;> rfl
  · intro h
    cases c <;> cases hok : responseOk status <;>
      simp_all [Users.run, Users.handle, handleJson, handleStatusMessage, UsersCall.fixedMessage]
  · cases hok : responseOk status <;>
      simp_all [Journal.run, handleJson]

/-- Witness for C3 at a concrete parse failure on a success status of a
parsed-body method. -/
theorem c3_other_failures_propagate_witness :
    (Users.run cfgA (.User "u1" "tok") (.resp 200 (.error 7))).2.2
      = .error (.raw 7) :=
  (c3_other_failures_propagate cfgA (.User "u1" "tok") jcfgA "client" "e1" "d1" [] "tok"
    7 200).2.1 (Or.inr rfl)

/-- Claim C4: every invocation of a public request method of Users or
Journal hands exactly one request to fetch: no retry, no second request, no
cached response. -/
theorem c4_single_fetch (cfg : UsersConfig) (c : UsersCall) (o : FetchOutcome)
    (jcfg : JournalConfig) (et ei di : String) (qp : List (String × Json)) (tk : String) :
    (Users.run cfg c o).2.1.length = 1
    ∧ (Journal.run jcfg et ei di qp tk o).2.1.length = 1 :=
  ⟨rfl, rfl⟩

/-- Claim C2 counterexample: DeleteUser on a success status does not return
the parsed JSON response body; it returns a constructed Response object with
the HTTP status and a fixed message, which differs from the parsed body. -/
theorem c2_counterexample :
    (Users.run cfgA (.DeleteUser "u1" "tok") (.resp 200 (.ok bodyA))).2.2
      = .ok (statusMessage 200 "User deleted successfully")
    ∧ statusMessage 200 "User deleted successfully" ≠ bodyA :=
  ⟨rfl, by decide⟩

/-- Claim C2 as amended: on a success status every Users method other than
ResetPasswordRequest, ResetPassword and DeleteUser returns the parsed JSON
body, as does Journal.Journal; those three methods instead return a Response
object holding the HTTP status and their fixed message, without reading the
body at all. -/
theorem c2_amended_success_returns (cfg : UsersConfig) (c : UsersCall)
    (jcfg : JournalConfig) (et ei di : String) (qp : List (String × Json)) (tk : String)
    (status : Nat) (jo : Except Nat Json) (v : Json) (m : String)
    (hok : responseOk status = true) :
    (c.fixedMessage = none → jo = .ok v →
        (Users.run cfg c (.resp status jo)).2.2 = .ok v)
    ∧ (c.fixedMessage = some m →
        (Users.run cfg c (.resp status jo)).2.2 = .ok (statusMessage status m))
    ∧ (jo = .ok v → (Journal.run jcfg et ei di qp tk (.resp status jo)).2.2 = .ok v) := by
  refine ⟨?_, ?_, ?_⟩
  · intro hm hv
    subst hv
    cases c <;> simp_all [Users.run, Users.handle, handleJson, UsersCall.fixedMessage]
  · intro hm
    cases c <;>
      simp_all [Users.run, Users.handle, handleStatusMessage, UsersCall.fixedMessage]
  · intro hv
    subst hv
    simp [Journal.run, handleJson, hok]

/-- Witness for the amended C2 at a success status, for a parsed-body method
and a fixed-message method. -/
theorem c2_amended_success_returns_witness :
    (Users.run cfgA (.User "u1" "tok") (.resp 200 (.ok bodyA))).2.2 = .ok bodyA
    ∧ (Users.run cfgA (.DeleteUser "u1" "tok") (.resp 200 (.ok bodyA))).2.2
        = .ok (statusMessage 200 "User deleted successfully") :=
  ⟨(c2_amended_success_returns cfgA (.User "u1" "tok") jcfgA "client" "e1" "d1" [] "tok"
      200 (.ok bodyA) bodyA "m" rfl).1 rfl rfl,
   (c2_amended_success_returns cfgA (.DeleteUser "u1" "tok") jcfgA "client" "e1" "d1" [] "tok"
      200 (.ok bodyA) bodyA "User deleted successfully" rfl).2.1 rfl⟩

/-- Claim C5 counterexample: the CreateToken request carries no Authorization
header at all, its only header being Content-Type. -/
theorem c5_counterexample :
    (Users.request cfgA
        (.CreateToken (Json.obj [("identity", .str "admin"), ("secret", .str "pw")]))).headers
      = [("Content-Type", "application/json")] :=
  rfl

/-- Claim C5 as amended: every request of Users and Journal carries the
header Authorization: Bearer followed by the caller token, except those of
CreateToken, ResetPasswordRequest and ResetPassword, which carry no
Authorization header at all (for Create with the token omitted the value is
Bearer undefined, and RefreshToken uses its refreshToken argument). -/
theorem c5_amended_bearer_auth (cfg : UsersConfig) (c : UsersCall)
    (jcfg : JournalConfig) (et ei di : String) (qp : List (String × Json)) (tk : String) :
    (∀ t, c.authToken = some t →
        ("Authorization", "Bearer " ++ t) ∈ (Users.request cfg c).headers)
    ∧ (c.authToken = none →
        ∀ p ∈ (Users.request cfg c).headers, p.1 ≠ "Authorization")
    ∧ ("Authorization", "Bearer " ++ tk) ∈ (Journal.request jcfg et ei di qp tk).headers := by
  refine ⟨?_, ?_, ?_⟩
  · intro t ht
    cases c <;> simp_all [UsersCall.authToken, Users.request]
  · intro h p hp
    cases c <;> simp_all [UsersCall.authToken, Users.request]
    all_goals rcases hp with h1 | h1 <;> simp [h1]
  · simp [Journal.request]

/-- Witness for the amended C5: a method with auth, a method without, and
Journal. -/
theorem c5_amended_bearer_auth_witness :
    ("Authorization", "Bearer tok") ∈ (Users.request cfgA (.User "u1" "tok")).headers
    ∧ (∀ p ∈ (Users.request cfgA (.ResetPassword "pw" "pw" "tok")).headers,
        p.1 ≠ "Authorization")
    ∧ ("Authorization", "Bearer tok") ∈ (Journal.request jcfgA "client" "e1" "d1" [] "tok").headers :=
  ⟨(c5_amended_bearer_auth cfgA (.User "u1" "tok") jcfgA "client" "e1" "d1" [] "tok").1 "tok" rfl,
   (c5_amended_bearer_auth cfgA (.ResetPassword "pw" "pw" "tok") jcfgA "client" "e1" "d1" [] "tok").2.1 rfl,
   (c5_amended_bearer_auth cfgA (.User "u1" "tok") jcfgA "client" "e1" "d1" [] "tok").2.2⟩

/-- Claim C6: both clients are stateless wrappers over immutable
configuration: construction fixes contentType to application/json, and no
method invocation changes any configuration field. -/
theorem c6_immutable_config (u ju : String) (cu : Option String)
    (cfg : UsersConfig) (jcfg : JournalConfig)
    (hc : Users.construct u cu = some cfg) (hj : Journal.construct ju = some jcfg) :
    cfg.contentType = "application/json"
    ∧ jcfg.contentType = "application/json"
    ∧ (∀ c o, (Users.run cfg c o).1 = cfg)
    ∧ (∀ et ei di qp tk o, (Journal.run jcfg et ei di qp tk o).1 = jcfg) :=
  ⟨(users_construct_constants u cu cfg hc).1,
   (journal_construct_constants ju jcfg hj).1,
   fun _ _ => rfl,
   fun _ _ _ _ _ _ => rfl⟩

/-- Witness for C6 at concretely constructed clients. -/
theorem c6_immutable_config_witness :
    cfgA.contentType = "application/json"
    ∧ jcfgA.contentType = "application/json"
    ∧ (∀ c o, (Users.run cfgA c o).1 = cfgA)
    ∧ (∀ et ei di qp tk o, (Journal.run jcfgA et ei di qp tk o).1 = jcfgA) :=
  c6_immutable_config "http://users.example" "http://journal.example"
    (some "http://clients.example") cfgA jcfgA rfl rfl

/-- Claim C8: the Users constructor fails whenever the clientsUrl argument
is omitted, because the undefined branch evaluates new URL("") which throws;
consequently a Users instance exists exactly when both usersUrl and
clientsUrl parse as valid absolute URLs. -/
theorem c8_constructor_requires_both_urls :
    (∀ u, Users.construct u none = none)
    ∧ ∀ u c, (Users.construct u (some c)).isSome
        = ((parseURL u).isSome && (parseURL c).isSome) := by
  constructor
  · intro u
    unfold Users.construct
    have he : parseURL "" = none := rfl
    cases hpu : parseURL u <;> simp [he]
  · intro u c
    unfold Users.construct
    cases hpu : parseURL u <;> cases hpc : parseURL c <;> simp [hpu, hpc]

/-- Claim C9: when Users.Create is called with the token argument omitted,
the request is still sent (exactly one fetch) and carries the literal header
value Bearer undefined. -/
theorem c9_create_omitted_token_bearer_undefined (cfg : UsersConfig) (user : Json)
    (o : FetchOutcome) :
    ("Authorization", "Bearer undefined") ∈ (Users.request cfg (.Create user none)).headers
    ∧ (Users.run cfg (.Create user none) o).2.1 = [Users.request cfg (.Create user none)] := by
  constructor
  · have : ("Bearer " ++ jsUndef none : String) = "Bearer undefined" := rfl
    simp [Users.request, this]
  · rfl

/-- Claim C10 counterexample: a Users client constructed with two distinct
base URLs that share a host. ListUserClients, ListUserChannels and
ListUserGroups all target the host example.com, so distinctness of the two
configured URLs alone does not make the three list methods target different
hosts. -/
theorem c10_counterexample :
    Users.construct "http://example.com/a/" (some "http://example.com/b/") = some cfgSameHost
    ∧ "http://example.com/a/" ≠ "http://example.com/b/"
    ∧ cfgSameHost.usersUrl ≠ cfgSameHost.clientsUrl
    ∧ (Users.request cfgSameHost (.ListUserClients "u1" "d1" [] "t")).url.host = "example.com"
    ∧ (Users.request cfgSameHost (.ListUserChannels "d1" "u1" [] "t")).url.host = "example.com"
    ∧ (Users.request cfgSameHost (.ListUserGroups "d1" "u1" [] "t")).url.host = "example.com" :=
  ⟨rfl, by decide, by decide, rfl, rfl, rfl⟩

/-- Claim C10 as amended: ListUserClients and ListUserChannels resolve their
request URL against the clientsUrl base while ListUserGroups resolves
against usersUrl, so whenever the two configured bases have distinct hosts
the three list methods do not all target the same host. -/
theorem c10_amended_bases (cfg : UsersConfig) (domainId userId : String)
    (qp : List (String × Json)) (tk : String) :
    (Users.request cfg (.ListUserClients userId domainId qp tk)).url.host = cfg.clientsUrl.host
    ∧ (Users.request cfg (.ListUserChannels domainId userId qp tk)).url.host = cfg.clientsUrl.host
    ∧ (Users.request cfg (.ListUserGroups domainId userId qp tk)).url.host = cfg.usersUrl.host
    ∧ (cfg.usersUrl.host ≠ cfg.clientsUrl.host →
        (Users.request cfg (.ListUserClients userId domainId qp tk)).url.host
          ≠ (Users.request cfg (.ListUserGroups domainId userId qp tk)).url.host) :=
  ⟨rfl, rfl, rfl, fun hne h => hne h.symm⟩

/-- Witness for the amended C10 at a client whose bases have distinct
hosts. -/
theorem c10_amended_bases_witness :
    (Users.request cfgA (.ListUserClients "u1" "d1" [] "t")).url.host
      ≠ (Users.request cfgA (.ListUserGroups "d1" "u1" [] "t")).url.host :=
  (c10_amended_bases cfgA "d1" "u1" [] "t").2.2.2 (by decide)

theorem startsWithSlash_chain6 (d a b c e f g : String) (hd : d.data ≠ []) :
    startsWithSlash (d ++ a ++ b ++ c ++ e ++ f ++ g) = startsWithSlash d := by
  have h1 : (d ++ a).data ≠ [] := data_append_ne_nil _ _ hd
  have h2 : (d ++ a ++ b).data ≠ [] := data_append_ne_nil _ _ h1
  have h3 : (d ++ a ++ b ++ c).data ≠ [] := data_append_ne_nil _ _ h2
  have h4 : (d ++ a ++ b ++ c ++ e).data ≠ [] := data_append_ne_nil _ _ h3
  have h5 : (d ++ a ++ b ++ c ++ e ++ f).data ≠ [] := data_append_ne_nil _ _ h4
  rw [startsWithSlash_append _ _ h5, startsWithSlash_append _ _ h4,
      startsWithSlash_append _ _ h3, startsWithSlash_append _ _ h2,
      startsWithSlash_append _ _ h1, startsWithSlash_append _ _ hd]

/-- Claim C7: for every method taking a queryParams object (Users.Users,
Users.SearchUsers, Users.ListUserGroups, Users.ListUserClients,
Users.ListUserChannels, Journal.Journal), the request method is GET and the
query string of the request URL is exactly the URLSearchParams serialization
of the map sending each key of queryParams to String(value), appended right
after the resource path of the method, which in turn sits under the
directory of the base URL path. The dynamic path pieces are assumed to
contain no question mark and no hash sign, and the domain id not to start
with a slash, since the URL parser would otherwise cut the path or query at
a different point. -/
theorem c7_query_serialization (u cu ju : String) (cfg : UsersConfig) (jcfg : JournalConfig)
    (hc : Users.construct u (some cu) = some cfg) (hj : Journal.construct ju = some jcfg)
    (qp : List (String × Json)) (tk : String)
    (domainId userId entityType entityId : String)
    (hdq : '?' ∉ domainId.data) (huq : '?' ∉ userId.data)
    (hetq : '?' ∉ entityType.data) (heiq : '?' ∉ entityId.data)
    (_hdh : '#' ∉ domainId.data) (_huh : '#' ∉ userId.data)
    (_heth : '#' ∉ entityType.data) (_heih : '#' ∉ entityId.data)
    (hd0 : startsWithSlash domainId = false) (hdne : domainId.data ≠ []) :
    ((Users.request cfg (.Users qp tk)).method = "GET"
      ∧ (Users.request cfg (.Users qp tk)).url.query
          = urlSearchParamsToString (stringParams qp)
      ∧ (Users.request cfg (.Users qp tk)).url.path
          = dirOf cfg.usersUrl.path ++ "users")
    ∧ ((Users.request cfg (.SearchUsers qp tk)).method = "GET"
      ∧ (Users.request cfg (.SearchUsers qp tk)).url.query
          = urlSearchParamsToString (stringParams qp)
      ∧ (Users.request cfg (.SearchUsers qp tk)).url.path
          = dirOf cfg.usersUrl.path ++ ("users" ++ "/" ++ "search"))
    ∧ ((Users.request cfg (.ListUserGroups domainId userId qp tk)).method = "GET"
      ∧ (Users.request cfg (.ListUserGroups domainId userId qp tk)).url.query
          = urlSearchParamsToString (stringParams qp)
      ∧ (Users.request cfg (.ListUserGroups domainId userId qp tk)).url.path
          = dirOf cfg.usersUrl.path
            ++ (domainId ++ "/" ++ "users" ++ "/" ++ userId ++ "/groups"))
    ∧ ((Users.request cfg (.ListUserClients userId domainId qp tk)).method = "GET"
      ∧ (Users.request cfg (.ListUserClients userId domainId qp tk)).url.query
          = urlSearchParamsToString (stringParams qp)
      ∧ (Users.request cfg (.ListUserClients userId domainId qp tk)).url.path
          = dirOf cfg.clientsUrl.path
            ++ (domainId ++ "/" ++ "users" ++ "/" ++ userId ++ "/clients"))
    ∧ ((Users.request cfg (.ListUserChannels domainId userId qp tk)).method = "GET"
      ∧ (Users.request cfg (.ListUserChannels domainId userId qp tk)).url.query
          = urlSearchParamsToString (stringParams qp)
      ∧ (Users.request cfg (.ListUserChannels domainId userId qp tk)).url.path
          = dirOf cfg.clientsUrl.path
            ++ (domainId ++ "/" ++ "users" ++ "/" ++ userId ++ "/channels"))
    ∧ ((Journal.request jcfg entityType entityId domainId qp tk).method = "GET"
      ∧ (Journal.request jcfg entityType entityId domainId qp tk).url.query
          = urlSearchParamsToString (stringParams qp)
      ∧ (Journal.request jcfg entityType entityId domainId qp tk).url.path
          = dirOf jcfg.journalsUrl.path
            ++ (domainId ++ "/" ++ "journal" ++ "/" ++ entityType ++ "/" ++ entityId)) := by
  obtain ⟨hct, hue, hse⟩ := users_construct_constants u (some cu) cfg hc
  obtain ⟨hjct, hje⟩ := journal_construct_constants ju jcfg hj
  have n1 : '?' ∉ (domainId ++ "/").data := not_mem_data_append _ _ hdq (by decide)
  have n2 : '?' ∉ (domainId ++ "/" ++ "users").data := not_mem_data_append _ _ n1 (by decide)
  have n3 : '?' ∉ (domainId ++ "/" ++ "users" ++ "/").data :=
    not_mem_data_append _ _ n2 (by decide)
  have n4 : '?' ∉ (domainId ++ "/" ++ "users" ++ "/" ++ userId).data :=
    not_mem_data_append _ _ n3 huq
  have hpG : '?' ∉ (domainId ++ "/" ++ "users" ++ "/" ++ userId ++ "/groups").data :=
    not_mem_data_append _ _ n4 (by decide)
  have hpC : '?' ∉ (domainId ++ "/" ++ "users" ++ "/" ++ userId ++ "/clients").data :=
    not_mem_data_append _ _ n4 (by decide)
  have hpH : '?' ∉ (domainId ++ "/" ++ "users" ++ "/" ++ userId ++ "/channels").data :=
    not_mem_data_append _ _ n4 (by decide)
  have m2 : '?' ∉ (domainId ++ "/" ++ "journal").data := not_mem_data_append _ _ n1 (by decide)
  have m3 : '?' ∉ (domainId ++ "/" ++ "journal" ++ "/").data :=
    not_mem_data_append _ _ m2 (by decide)
  have m4 : '?' ∉ (domainId ++ "/" ++ "journal" ++ "/" ++ entityType).data :=
    not_mem_data_append _ _ m3 hetq
  have m5 : '?' ∉ (domainId ++ "/" ++ "journal" ++ "/" ++ entityType ++ "/").data :=
    not_mem_data_append _ _ m4 (by decide)
  have hpJ : '?' ∉ (domainId ++ "/" ++ "journal" ++ "/" ++ entityType ++ "/" ++ entityId).data :=
    not_mem_data_append _ _ m5 heiq
  have hU : (Users.request cfg (.Users qp tk)).url
      = ⟨cfg.usersUrl.scheme, cfg.usersUrl.host, dirOf cfg.usersUrl.path ++ "users",
         urlSearchParamsToString (stringParams qp)⟩ := by
    show resolveURL (cfg.usersEndpoint ++ "?" ++ urlSearchParamsToString (stringParams qp))
        cfg.usersUrl = _
    rw [hue, resolveURL_query _ _ _ (by decide)]
    rfl
  have hS : (Users.request cfg (.SearchUsers qp tk)).url
      = ⟨cfg.usersUrl.scheme, cfg.usersUrl.host,
         dirOf cfg.usersUrl.path ++ ("users" ++ "/" ++ "search"),
         urlSearchParamsToString (stringParams qp)⟩ := by
    show resolveURL (cfg.usersEndpoint ++ "/" ++ cfg.searchEndpoint ++ "?"
        ++ urlSearchParamsToString (stringParams qp)) cfg.usersUrl = _
    rw [hue, hse, resolveURL_query _ _ _ (by decide)]
    rfl
  have hG : (Users.request cfg (.ListUserGroups domainId userId qp tk)).url
      = ⟨cfg.usersUrl.scheme, cfg.usersUrl.host,
         dirOf cfg.usersUrl.path ++ (domainId ++ "/" ++ "users" ++ "/" ++ userId ++ "/groups"),
         urlSearchParamsToString (stringParams qp)⟩ := by
    show resolveURL (domainId ++ "/" ++ cfg.usersEndpoint ++ "/" ++ userId ++ "/groups" ++ "?"
        ++ urlSearchParamsToString (stringParams qp)) cfg.usersUrl = _
    rw [hue, resolveURL_query _ _ _ hpG, startsWithSlash_chain5 _ _ _ _ _ _ hdne, hd0]
    rfl
  have hC : (Users.request cfg (.ListUserClients userId domainId qp tk)).url
      = ⟨cfg.clientsUrl.scheme, cfg.clientsUrl.host,
         dirOf cfg.clientsUrl.path ++ (domainId ++ "/" ++ "users" ++ "/" ++ userId ++ "/clients"),
         urlSearchParamsToString (stringParams qp)⟩ := by
    show resolveURL (domainId ++ "/" ++ cfg.usersEndpoint ++ "/" ++ userId ++ "/clients" ++ "?"
        ++ urlSearchParamsToString (stringParams qp)) cfg.clientsUrl = _
    rw [hue, resolveURL_query _ _ _ hpC, startsWithSlash_chain5 _ _ _ _ _ _ hdne, hd0]
    rfl
  have hH : (Users.request cfg (.ListUserChannels domainId userId qp tk)).url
      = ⟨cfg.clientsUrl.scheme, cfg.clientsUrl.host,
         dirOf cfg.clientsUrl.path ++ (domainId ++ "/" ++ "users" ++ "/" ++ userId ++ "/channels"),
         urlSearchParamsToString (stringParams qp)⟩ := by
    show resolveURL (domainId ++ "/" ++ cfg.usersEndpoint ++ "/" ++ userId ++ "/channels" ++ "?"
        ++ urlSearchParamsToString (stringParams qp)) cfg.clientsUrl = _
    rw [hue, resolveURL_query _ _ _ hpH, startsWithSlash_chain5 _ _ _ _ _ _ hdne, hd0]
    rfl
  have hJ : (Journal.request jcfg entityType entityId domainId qp tk).url
      = ⟨jcfg.journalsUrl.scheme, jcfg.journalsUrl.host,
         dirOf jcfg.journalsUrl.path
           ++ (domainId ++ "/" ++ "journal" ++ "/" ++ entityType ++ "/" ++ entityId),
         urlSearchParamsToString (stringParams qp)⟩ := by
    show resolveURL (domainId ++ "/" ++ jcfg.journalsEndpoint ++ "/" ++ entityType ++ "/"
        ++ entityId ++ "?" ++ urlSearchParamsToString (stringParams qp)) jcfg.journalsUrl = _
    rw [hje, resolveURL_query _ _ _ hpJ, startsWithSlash_chain6 _ _ _ _ _ _ _ hdne, hd0]
    rfl
  exact ⟨⟨rfl, by rw [hU], by rw [hU]⟩, ⟨rfl, by rw [hS], by rw [hS]⟩,
         ⟨rfl, by rw [hG], by rw [hG]⟩, ⟨rfl, by rw [hC], by rw [hC]⟩,
         ⟨rfl, by rw [hH], by rw [hH]⟩, ⟨rfl, by rw [hJ], by rw [hJ]⟩⟩

/-- Witness for C7 at a concrete query, for Users.Users and for
Journal.Journal. -/
theorem c7_query_serialization_witness :
    (Users.request cfgA (.Users [("offset", Json.num 0), ("limit", Json.num 10)] "tok")).url.query
      = "offset=0&limit=10"
    ∧ (Journal.request jcfgA "client" "e1" "dom1"
        [("offset", Json.num 0), ("limit", Json.num 10)] "tok").url.query
      = "offset=0&limit=10" := by
  have h := c7_query_serialization "http://users.example" "http://clients.example"
    "http://journal.example" cfgA jcfgA rfl rfl
    [("offset", Json.num 0), ("limit", Json.num 10)] "tok"
    "dom1" "u1" "client" "e1"
    (by decide) (by decide) (by decide) (by decide)
    (by decide) (by decide) (by decide) (by decide)
    (by decide) (by decide)
  exact ⟨h.1.2.1.trans (by decide), h.2.2.2.2.2.2.1.trans (by decide)⟩
